import Mathlib

/-!
# Wake Up For Suhoor — verification of the sleep-cycle / Fajr-alignment core

Shallow embedding of the calculator core of `src/App.tsx`:

* timestamps are modelled as `Int`, in milliseconds (JS `Date.getTime()`);
* `Math.floor(x / 60000)` on an integer millisecond quantity is `Int.fdiv x 60000`
  (floor division, which is what `Math.floor` of the real quotient computes);
* JS `number` durations (`durationMinutes / 60`) are modelled as `ℚ`: the values
  that occur (multiples of 1.5) are exactly representable in both;
* the optional Fajr timestamp (`Date | null`) is `Option Int`, where `some f`
  is a valid instant;
* the band of a candidate card is the first match of the `className` ternary
  chain (App.tsx lines 463–471): `isRecommendedForFajr`, else `isWarningTime`,
  else `isLateWakeup`, else neutral.
-/

/-- `const MILLISECONDS_IN_MINUTE = 60000` (App.tsx line 42). -/
def MILLISECONDS_IN_MINUTE : Int := 60000

/-- `interface SleepCycle { cycles; duration; wakeTime }` (App.tsx lines 5–9).
`duration` is in hours, `wakeTime` in ms. -/
structure SleepCycle where
  cycles : Int
  duration : ℚ
  wakeTime : Int
deriving DecidableEq, Repr

/-- `calculateSleepCycles` (App.tsx lines 44–60): for `i` in `2..6`,
push `{ cycles := i, duration := i*90/60, wakeTime := bedTime + i*90*60000 }`. -/
def calculateSleepCycles (bedTime : Int) : List SleepCycle :=
  (List.range' 2 5).map (fun i =>
    let durationMinutes : Int := (i : Int) * 90
    { cycles := (i : Int)
      duration := (durationMinutes : ℚ) / 60
      wakeTime := bedTime + durationMinutes * MILLISECONDS_IN_MINUTE })

/-- `timeToFajr = fajrTime ? fajrTime.getTime() - cycle.wakeTime.getTime() : 0`
(App.tsx line 437). -/
def timeToFajr (fajrTime : Option Int) (wakeTime : Int) : Int :=
  match fajrTime with
  | some f => f - wakeTime
  | none => 0

/-- `minutesToFajr = Math.floor(timeToFajr / MILLISECONDS_IN_MINUTE)`
(App.tsx line 438); floor division of integers. -/
def minutesToFajr (fajrTime : Option Int) (wakeTime : Int) : Int :=
  Int.fdiv (timeToFajr fajrTime wakeTime) MILLISECONDS_IN_MINUTE

/-- `isRecommendedForFajr` (App.tsx lines 445–449):
`fajrTime && (minutesToFajr >= 20 && minutesToFajr <= 90) &&
(Math.abs(minutesToFajr - 45) < 30)`. -/
def isRecommendedForFajr (fajrTime : Option Int) (wakeTime : Int) : Bool :=
  match fajrTime with
  | none => false
  | some _ =>
    let m := minutesToFajr fajrTime wakeTime
    decide (20 ≤ m) && decide (m ≤ 90) && decide (|m - 45| < 30)

/-- `isWarningTime` (App.tsx lines 451–453):
`fajrTime && timeToFajr > 0 && timeToFajr <= 20 * MILLISECONDS_IN_MINUTE`
(a millisecond comparison, not an integer-minute one). -/
def isWarningTime (fajrTime : Option Int) (wakeTime : Int) : Bool :=
  match fajrTime with
  | none => false
  | some _ =>
    let t := timeToFajr fajrTime wakeTime
    decide (0 < t) && decide (t ≤ 20 * MILLISECONDS_IN_MINUTE)

/-- `isLateWakeup` (App.tsx lines 455–456):
`fajrTime && cycle.wakeTime.getTime() >= fajrTime.getTime()`. -/
def isLateWakeup (fajrTime : Option Int) (wakeTime : Int) : Bool :=
  match fajrTime with
  | none => false
  | some f => decide (wakeTime ≥ f)

/-- The classification band of a candidate card. -/
inductive Band where
  | Recommended
  | Warning
  | TooLate
  | Neutral
deriving DecidableEq, Repr

/-- The `className` ternary chain (App.tsx lines 463–471):
`isRecommendedForFajr ? teal : isWarningTime ? yellow : isLateWakeup ? red :
neutral` — note `isRecommendedForFajr` is tested first. -/
def classifyBand (fajrTime : Option Int) (wakeTime : Int) : Band :=
  if isRecommendedForFajr fajrTime wakeTime then Band.Recommended
  else if isWarningTime fajrTime wakeTime then Band.Warning
  else if isLateWakeup fajrTime wakeTime then Band.TooLate
  else Band.Neutral

/-- `sleepSchedule.sleepCycles.map(...)` (App.tsx line 436): each candidate is
classified independently against the same optional Fajr timestamp. -/
def classify (candidates : List SleepCycle) (fajrTime : Option Int) :
    List (SleepCycle × Band) :=
  candidates.map (fun c => (c, classifyBand fajrTime c.wakeTime))

/-! ## Bridging lemmas -/

/-- `Math.floor` division by 60000 agrees with Euclidean division (positive divisor). -/
theorem minutesToFajr_some (f w : Int) :
    minutesToFajr (some f) w = (f - w) / 60000 := by
  simp only [minutesToFajr, timeToFajr, MILLISECONDS_IN_MINUTE]
  exact Int.fdiv_eq_ediv _ (by norm_num)

/-- The Recommended predicate, in milliseconds: `minutesToFajr ∈ [20, 74]`
is exactly `timeToFajr ∈ [1200000, 4500000)`. -/
theorem isRecommended_iff (f w : Int) :
    isRecommendedForFajr (some f) w = true ↔
      (1200000 ≤ f - w ∧ f - w < 4500000) := by
  simp only [isRecommendedForFajr, Bool.and_eq_true, decide_eq_true_eq,
    minutesToFajr_some, abs_lt]
  omega

/-- The Warning predicate, in milliseconds. -/
theorem isWarning_iff (f w : Int) :
    isWarningTime (some f) w = true ↔ (0 < f - w ∧ f - w ≤ 1200000) := by
  simp only [isWarningTime, timeToFajr, MILLISECONDS_IN_MINUTE,
    Bool.and_eq_true, decide_eq_true_eq]
  omega

/-- The TooLate predicate. -/
theorem isLate_iff (f w : Int) :
    isLateWakeup (some f) w = true ↔ f ≤ w := by
  simp [isLateWakeup]

/-- Band characterization: Recommended. -/
theorem classifyBand_recommended_iff (f w : Int) :
    classifyBand (some f) w = Band.Recommended ↔
      (1200000 ≤ f - w ∧ f - w < 4500000) := by
  rw [← isRecommended_iff]
  unfold classifyBand
  split_ifs with h1 h2 h3 <;> simp_all

/-- Band characterization: Warning (the `timeToFajr = 1200000` point goes to
Recommended, which is tested first, so the band is a strict window). -/
theorem classifyBand_warning_iff (f w : Int) :
    classifyBand (some f) w = Band.Warning ↔ (0 < f - w ∧ f - w < 1200000) := by
  unfold classifyBand
  split_ifs with h1 h2 h3 <;>
    simp_all [isRecommended_iff, isWarning_iff] <;> omega

/-- Band characterization: TooLate. -/
theorem classifyBand_tooLate_iff (f w : Int) :
    classifyBand (some f) w = Band.TooLate ↔ f ≤ w := by
  unfold classifyBand
  split_ifs with h1 h2 h3 <;>
    simp_all [isRecommended_iff, isWarning_iff, isLate_iff]
  omega

/-- Absent Fajr: every band predicate is false, so the chain falls to Neutral. -/
theorem classifyBand_none (w : Int) : classifyBand none w = Band.Neutral := rfl

/-- `calculateSleepCycles` as an explicit five-element list. -/
theorem calculateSleepCycles_eq (b : Int) :
    calculateSleepCycles b =
      [ ⟨2, 3, b + 10800000⟩, ⟨3, 9/2, b + 16200000⟩, ⟨4, 6, b + 21600000⟩,
        ⟨5, 15/2, b + 27000000⟩, ⟨6, 9, b + 32400000⟩ ] := by
  simp only [calculateSleepCycles, MILLISECONDS_IN_MINUTE, List.range']
  norm_num

/-- Every generated candidate has `cycles = i ∈ [2,6]`,
`duration = i * 90 / 60` hours and `wakeTime = b + i * 5400000` ms. -/
theorem mem_calculateSleepCycles {b : Int} {c : SleepCycle}
    (h : c ∈ calculateSleepCycles b) :
    ∃ i : Int, 2 ≤ i ∧ i ≤ 6 ∧ c.cycles = i ∧ c.duration = i * 90 / 60 ∧
      c.wakeTime = b + i * 5400000 := by
  rw [calculateSleepCycles_eq] at h
  simp only [List.mem_cons, List.not_mem_nil, or_false] at h
  rcases h with rfl | rfl | rfl | rfl | rfl
  · exact ⟨2, by norm_num⟩
  · exact ⟨3, by norm_num⟩
  · exact ⟨4, by norm_num⟩
  · exact ⟨5, by norm_num⟩
  · exact ⟨6, by norm_num⟩

/-! ## Claims -/

/-- C1: for every bedtime `b`, `calculateSleepCycles b` returns exactly five
candidates with `cycles` = 2,3,4,5,6 in that ascending order, each with
`wakeTime = b + cycles * 90` minutes and `duration = cycles * 1.5` hours. -/
theorem calculateSleepCycles_spec (b : Int) :
    calculateSleepCycles b =
      [ ⟨2, 2 * (3/2 : ℚ), b + 2 * 90 * 60000⟩,
        ⟨3, 3 * (3/2 : ℚ), b + 3 * 90 * 60000⟩,
        ⟨4, 4 * (3/2 : ℚ), b + 4 * 90 * 60000⟩,
        ⟨5, 5 * (3/2 : ℚ), b + 5 * 90 * 60000⟩,
        ⟨6, 6 * (3/2 : ℚ), b + 6 * 90 * 60000⟩ ] := by
  rw [calculateSleepCycles_eq]
  norm_num

/-- C2 (counterexample): at `fajrTime − wakeTime = 1200000` ms (exactly 20
minutes), `minutesToFajr = 20` satisfies the claimed Warning rule
`0 < minutesToFajr ≤ 20`, so the claim says the candidate is not Recommended;
but the code classifies it Recommended (`isRecommendedForFajr` is tested first
in the ternary chain). The claimed equivalence is false at this input. -/
theorem recommended_claim_false_at_exact_20min :
    ¬ (classifyBand (some 1200000) 0 = Band.Recommended ↔
        (¬ isLateWakeup (some 1200000) 0 = true ∧
         ¬ (0 < minutesToFajr (some 1200000) 0 ∧
             minutesToFajr (some 1200000) 0 ≤ 20) ∧
         20 ≤ minutesToFajr (some 1200000) 0 ∧
         minutesToFajr (some 1200000) 0 ≤ 90 ∧
         |minutesToFajr (some 1200000) 0 - 45| < 30)) := by
  decide

/-- C2 (amended): the band is Recommended exactly when
`20 ≤ minutesToFajr ≤ 90` and `|minutesToFajr − 45| < 30`, i.e. exactly when
`minutesToFajr ∈ [20, 74]` — with no precedence subtraction, because
`isRecommendedForFajr` is evaluated before the Warning and TooLate tests. -/
theorem classifyBand_recommended_window (f w : Int) :
    (classifyBand (some f) w = Band.Recommended ↔
      (20 ≤ minutesToFajr (some f) w ∧ minutesToFajr (some f) w ≤ 90 ∧
       |minutesToFajr (some f) w - 45| < 30)) ∧
    (classifyBand (some f) w = Band.Recommended ↔
      (20 ≤ minutesToFajr (some f) w ∧ minutesToFajr (some f) w ≤ 74)) := by
  simp only [classifyBand_recommended_iff, minutesToFajr_some, abs_lt]
  omega

/-- C3 (counterexample): at `fajrTime − wakeTime = 30000` ms (wake 30 seconds
before Fajr), `minutesToFajr = 0`, so the claimed rule `0 < minutesToFajr ≤ 20`
says the candidate is not Warning; but the code's millisecond test
`0 < timeToFajr ≤ 20·60000` classifies it Warning. -/
theorem warning_claim_false_at_30s :
    ¬ (classifyBand (some 30000) 0 = Band.Warning ↔
        (¬ isLateWakeup (some 30000) 0 = true ∧
         0 < minutesToFajr (some 30000) 0 ∧
         minutesToFajr (some 30000) 0 ≤ 20)) := by
  decide

/-- C3 (amended): the band is Warning exactly when
`0 < timeToFajr < 20 · MILLISECONDS_IN_MINUTE` — a millisecond window, not an
integer-minute one (so `minutesToFajr = 0` with `timeToFajr > 0` is Warning),
and open at the top because `timeToFajr = 20` minutes exactly is claimed by the
Recommended test, which runs first. -/
theorem classifyBand_warning_window (f w : Int) :
    classifyBand (some f) w = Band.Warning ↔
      (0 < timeToFajr (some f) w ∧
       timeToFajr (some f) w < 20 * MILLISECONDS_IN_MINUTE) := by
  simp only [classifyBand_warning_iff, timeToFajr, MILLISECONDS_IN_MINUTE]
  omega

/-- C4 (counterexample): at `fajrTime − wakeTime = 30000` ms the candidate
wakes strictly before Fajr (`isLateWakeup` is false), yet
`minutesToFajr = 0 ≤ 0` — so `wakeTime ≥ fajrTime` is not equivalent to
`minutesToFajr ≤ 0` as the claim asserts. -/
theorem tooLate_minutes_equiv_false :
    ¬ (isLateWakeup (some 30000) 0 = true ↔
        minutesToFajr (some 30000) 0 ≤ 0) := by
  decide

/-- C4 (amended): the band is TooLate exactly when `wakeTime ≥ fajrTime`
(inclusive boundary: equality is TooLate), and `wakeTime ≥ fajrTime` implies
`minutesToFajr ≤ 0` — but only in that direction, not as an equivalence. -/
theorem classifyBand_tooLate_char (f w : Int) :
    (classifyBand (some f) w = Band.TooLate ↔ w ≥ f) ∧
    (w ≥ f → minutesToFajr (some f) w ≤ 0) := by
  constructor
  · rw [classifyBand_tooLate_iff]
  · intro h
    rw [minutesToFajr_some]
    omega

/-- Witness for C4's amended theorem at `fajrTime = wakeTime = 0`. -/
theorem classifyBand_tooLate_char_witness :
    (classifyBand (some 0) 0 = Band.TooLate ↔ (0 : Int) ≥ 0) ∧
      minutesToFajr (some 0) 0 ≤ 0 :=
  ⟨(classifyBand_tooLate_char 0 0).1,
   (classifyBand_tooLate_char 0 0).2 (le_refl 0)⟩

/-- C5 (counterexample): at `fajrTime − wakeTime = 1200000` ms,
`minutesToFajr = 20` exactly, and the candidate is classified Recommended —
not Warning, contrary to the claim. -/
theorem minutes20_recommended_not_warning :
    minutesToFajr (some 1200000) 0 = 20 ∧
    classifyBand (some 1200000) 0 = Band.Recommended ∧
    classifyBand (some 1200000) 0 ≠ Band.Warning := by
  decide

/-- C5 (amended): every candidate with `minutesToFajr = 20` exactly is
classified Recommended (the Recommended test runs first and its window
includes 20), never Warning. -/
theorem minutes20_classifies_recommended (f w : Int)
    (h : minutesToFajr (some f) w = 20) :
    classifyBand (some f) w = Band.Recommended := by
  rw [minutesToFajr_some] at h
  rw [classifyBand_recommended_iff]
  omega

/-- Witness for C5's amended theorem: `fajrTime − wakeTime = 1230000` ms has
`minutesToFajr = 20`. -/
theorem minutes20_classifies_recommended_witness :
    classifyBand (some 1230000) 0 = Band.Recommended :=
  minutes20_classifies_recommended 1230000 0 (by decide)

/-- C6: for every Fajr input (present or absent) and every wake time, exactly
one of the four bands Recommended, Warning, TooLate, Neutral is assigned: the
ternary chain yields one band and excludes the other three. -/
theorem classifyBand_exactly_one_band (fajrTime : Option Int) (w : Int) :
    (classifyBand fajrTime w = Band.Recommended ∧
      classifyBand fajrTime w ≠ Band.Warning ∧
      classifyBand fajrTime w ≠ Band.TooLate ∧
      classifyBand fajrTime w ≠ Band.Neutral) ∨
    (classifyBand fajrTime w = Band.Warning ∧
      classifyBand fajrTime w ≠ Band.Recommended ∧
      classifyBand fajrTime w ≠ Band.TooLate ∧
      classifyBand fajrTime w ≠ Band.Neutral) ∨
    (classifyBand fajrTime w = Band.TooLate ∧
      classifyBand fajrTime w ≠ Band.Recommended ∧
      classifyBand fajrTime w ≠ Band.Warning ∧
      classifyBand fajrTime w ≠ Band.Neutral) ∨
    (classifyBand fajrTime w = Band.Neutral ∧
      classifyBand fajrTime w ≠ Band.Recommended ∧
      classifyBand fajrTime w ≠ Band.Warning ∧
      classifyBand fajrTime w ≠ Band.TooLate) := by
  cases h : classifyBand fajrTime w <;> simp [h]

/-- C7: when the Fajr time is absent, all five candidates generated from any
bedtime are classified Neutral. -/
theorem classify_absent_fajr_all_neutral (b : Int) :
    (classify (calculateSleepCycles b) none).map Prod.snd =
      [Band.Neutral, Band.Neutral, Band.Neutral, Band.Neutral, Band.Neutral] := by
  rw [classify, calculateSleepCycles_eq]
  simp [classifyBand_none]

/-! ## Fajr string parsing (`getFajrDateTime`, App.tsx lines 232–242) -/

/-- JS `String.prototype.split` with a single-character separator: splits the
character list at every occurrence of `sep`, keeping empty fields. -/
def jsSplitAux (sep : Char) : List Char → List Char → List String
  | [], acc => [String.mk acc.reverse]
  | c :: cs, acc =>
    if c = sep then String.mk acc.reverse :: jsSplitAux sep cs []
    else jsSplitAux sep cs (c :: acc)

/-- `s.split(sep)` for a one-character separator. -/
def jsSplit (sep : Char) (s : String) : List String :=
  jsSplitAux sep s.toList []

/-- Fragment of JS `Number(...)` coercion sufficient for the `"HH"`/`"MM"`
fields of a prayer-time string: the empty string coerces to `0`, a string of
decimal digits to its value, and every other string (letters, signs, spaces,
decimals — and the absent/`undefined` field) to NaN, modelled as `none`.
This restricted model agrees with JS on every string these theorems use. -/
def jsNumber (s : String) : Option Int :=
  let cs := s.toList
  if cs.isEmpty then some 0
  else if cs.all Char.isDigit then
    some (cs.foldl (fun n c => 10 * n + ((c.toNat : Int) - 48)) 0)
  else none

/-- `getFajrDateTime` (App.tsx lines 232–242). Outcome encoding:
`none` = JS `null` (returned only when `prayerTimes?.Fajr` is absent or the
empty string, both falsy); `some none` = an Invalid Date (`setHours` called
with NaN, e.g. a field that fails numeric coercion, or a missing `minutes`
component after destructuring — `undefined` coerces to NaN); `some (some t)` =
a valid timestamp. `tomorrowMidnight` abstracts `new Date()` followed by
`setDate(getDate() + 1)`: the local-midnight instant of tomorrow; then
`setHours(hours, minutes, 0, 0)` yields
`tomorrowMidnight + hours·3600000 + minutes·60000` (local-clock arithmetic
with out-of-range components rolling over, exactly as JS does). -/
def getFajrDateTime (fajrStr : Option String) (tomorrowMidnight : Int) :
    Option (Option Int) :=
  match fajrStr with
  | none => none
  | some s =>
    if s = "" then none
    else
      let parts := (jsSplit ':' s).map jsNumber
      let hours : Option Int := (parts.get? 0).getD none
      let minutes : Option Int := (parts.get? 1).getD none
      some (match hours, minutes with
            | some h, some m =>
              some (tomorrowMidnight + h * 3600000 + m * 60000)
            | _, _ => none)

/-- Modelled from the spec: a well-formed 24-hour `"HH:MM"` time string —
two decimal digits, a colon, two decimal digits, with hours below 24 and
minutes below 60. -/
def wellFormedHHMM (s : String) : Bool :=
  match s.toList with
  | [h1, h2, c, m1, m2] =>
    (c == ':') && h1.isDigit && h2.isDigit && m1.isDigit && m2.isDigit
      && decide ((h1.toNat - 48) * 10 + (h2.toNat - 48) < 24)
      && decide ((m1.toNat - 48) * 10 + (m2.toNat - 48) < 60)
  | _ => false

/-- C8 (counterexample): `"05:30:00"` is not a well-formed `"HH:MM"` string,
yet `getFajrDateTime` returns a non-null result for it (a valid 05:30
timestamp, built from the first two `:`-fields; the third is ignored). -/
theorem malformed_fajr_not_null :
    wellFormedHHMM "05:30:00" = false ∧
    getFajrDateTime (some "05:30:00") 0 = some (some 19800000) := by
  decide

/-- C8 (amended): `getFajrDateTime` never throws and returns `null` exactly
when the Fajr string is absent or empty; every other string — malformed ones
included — yields a non-null result (an Invalid Date when a field fails
numeric coercion, a timestamp otherwise). -/
theorem getFajrDateTime_null_iff (fajrStr : Option String)
    (tomorrowMidnight : Int) :
    getFajrDateTime fajrStr tomorrowMidnight = none ↔
      (fajrStr = none ∨ fajrStr = some "") := by
  match fajrStr with
  | none => simp [getFajrDateTime]
  | some s =>
    by_cases h : s = "" <;> simp [getFajrDateTime, h]

/-- C9 (implicit): for every bedtime and present Fajr time, at most one of the
five generated candidates is classified Recommended: consecutive wake times
are 90 minutes (5400000 ms) apart, while the effective Recommended window
`timeToFajr ∈ [1200000, 4500000)` is only 55 minutes wide. -/
theorem at_most_one_recommended (b f : Int) (c1 c2 : SleepCycle)
    (h1 : c1 ∈ calculateSleepCycles b) (h2 : c2 ∈ calculateSleepCycles b)
    (r1 : classifyBand (some f) c1.wakeTime = Band.Recommended)
    (r2 : classifyBand (some f) c2.wakeTime = Band.Recommended) :
    c1 = c2 := by
  obtain ⟨i, hi2, hi6, hci, hdi, hwi⟩ := mem_calculateSleepCycles h1
  obtain ⟨j, hj2, hj6, hcj, hdj, hwj⟩ := mem_calculateSleepCycles h2
  rw [classifyBand_recommended_iff, hwi] at r1
  rw [classifyBand_recommended_iff, hwj] at r2
  have hij : i = j := by omega
  cases c1
  cases c2
  simp_all

/-- Witness for C9 at bedtime 0, Fajr 12600000 ms: the 2-cycle candidate is
Recommended (`minutesToFajr = 30`). -/
theorem at_most_one_recommended_witness :
    (⟨2, 3, 10800000⟩ : SleepCycle) = ⟨2, 3, 10800000⟩ :=
  at_most_one_recommended 0 12600000 ⟨2, 3, 10800000⟩ ⟨2, 3, 10800000⟩
    (by simp [calculateSleepCycles_eq]) (by simp [calculateSleepCycles_eq])
    (by decide) (by decide)

/-- C10 (implicit): the TooLate band is upward closed in the cycle count —
for any bedtime and present Fajr time, if a generated candidate is TooLate
then every generated candidate with a larger cycle count is TooLate, because
wake times strictly increase with the cycle count. -/
theorem tooLate_upward_closed (b f : Int) (c1 c2 : SleepCycle)
    (h1 : c1 ∈ calculateSleepCycles b) (h2 : c2 ∈ calculateSleepCycles b)
    (hlt : c1.cycles < c2.cycles)
    (ht : classifyBand (some f) c1.wakeTime = Band.TooLate) :
    classifyBand (some f) c2.wakeTime = Band.TooLate := by
  obtain ⟨i, hi2, hi6, hci, hdi, hwi⟩ := mem_calculateSleepCycles h1
  obtain ⟨j, hj2, hj6, hcj, hdj, hwj⟩ := mem_calculateSleepCycles h2
  rw [classifyBand_tooLate_iff] at ht ⊢
  omega

/-- Witness for C10 at bedtime 0, Fajr 0: the 2-cycle candidate is TooLate,
hence so is the 3-cycle candidate. -/
theorem tooLate_upward_closed_witness :
    classifyBand (some 0) (⟨3, 9/2, 16200000⟩ : SleepCycle).wakeTime =
      Band.TooLate :=
  tooLate_upward_closed 0 0 ⟨2, 3, 10800000⟩ ⟨3, 9/2, 16200000⟩
    (by simp [calculateSleepCycles_eq]) (by simp [calculateSleepCycles_eq])
    (by decide) (by decide)
